import Mathlib

/-!
Shallow embedding of the TPC dead-channel-map creator
(`Detectors/TPC/base/src/DeadChannelMapCreator.cxx`).

Channel maps (`CalDet<bool>`) are modelled as `List Bool` over the
linearised channel space; per-channel flag payloads (`CalDet<PadFlags>`)
as `List Nat` of flag bit sets.  The CCDB client is modelled as an
oracle `Int → Option payload × CcdbMeta` supplied to each load
function; `std::map<std::string,std::string>::at` on the returned
metadata is modelled by `metaAt`, which fails (`Except.error`) when the
field is absent, mirroring the uncaught `std::out_of_range`.
`std::stol` of the metadata strings is folded into the `Option Int`
fields of `CcdbMeta` (parse failures are out of scope of the claims).
Each load function additionally returns the timestamp it passed to the
store (`none` when no fetch was attempted), making the externally
visible fetch call part of the result.
-/

namespace AliceO2
namespace TPC

/-- Modelled from the spec: the `ValidityInterval` value type with its
`isValid` predicate is declared in `TPCBase/DeadChannelMapCreator.h`,
which is not among the sampled sources.  Per the spec it is a half-open
interval `[start, end)`. -/
structure ValidityInterval where
  startvalidity : Int
  endvalidity : Int
deriving Repr, DecidableEq

/-- Modelled from the spec: `isValid(timestamp)` is
`start <= timestamp < end`. -/
def ValidityInterval.isValid (w : ValidityInterval) (ts : Int) : Bool :=
  decide (w.startvalidity ≤ ts) && decide (ts < w.endvalidity)

/-- Modelled from the spec: an empty/unpopulated window, which must be
invalid for every timestamp (forcing the first fetch). -/
def ValidityInterval.unset : ValidityInterval :=
  { startvalidity := 0, endvalidity := -1 }

/-- The `o2::tpc::FEEConfig` payload, external to the sampled sources;
only its `getDeadChannelMap()` accessor is used here, so it is modelled
by that boolean channel map. -/
structure FEEConfig where
  deadChannelMap : List Bool
deriving Repr, DecidableEq

def FEEConfig.getDeadChannelMap (c : FEEConfig) : List Bool :=
  c.deadChannelMap

/-- The metadata map returned by `ccdb::CcdbApi::retrieveFromTFileAny`.
Only the fields the creator reads are modelled; a `none` field models a
key absent from the `std::map`. -/
structure CcdbMeta where
  tag : Option Int
  validFrom : Option Int
  validUntil : Option Int
  etag : Option String
  lastModified : Option String
deriving Repr, DecidableEq

/-- `std::map::at`: yields the mapped value, or throws
(`std::out_of_range`, modelled as `Except.error ()`) when absent. -/
def metaAt {α : Type} : Option α → Except Unit α
  | some v => Except.ok v
  | none => Except.error ()

/-- Modelled from the spec: the `SourcesDeadMap` bit mask and
`useSource` test live in `DeadChannelMapCreator.h`, not among the
sampled sources; per the spec this is a set of independently enableable
named sources. -/
structure SourceSelection where
  useIDCPadStatus : Bool
  useFEEConfig : Bool
deriving Repr, DecidableEq

/-- The data members of `DeadChannelMapCreator` used by the sampled
functions.  `mObjectValidity` is an `unordered_map<CDBType,
ValidityInterval>`; only the two keys the `.cxx` file touches are kept,
as two fields. -/
structure CreatorState where
  mFEEConfig : Option FEEConfig
  mPadStatusMap : Option (List Nat)
  mDeadChannelMapFEE : List Bool
  mDeadChannelMapIDC : List Bool
  mDeadChannelMap : List Bool
  validityRunInfo : ValidityInterval
  validityIDCPadStatus : ValidityInterval
  sources : SourceSelection
deriving Repr, DecidableEq

/-- `CalDet<bool>::operator+=`: element-wise sum of two boolean maps,
which for C++ `bool` arithmetic is logical or. -/
def calAddBool (a b : List Bool) : List Bool :=
  a.zipWith or b

/-- Loop body of `setDeadChannelMapIDCPadStatus`: mark channel `i` dead
when the channel's flags intersect the mask. -/
def idcStep (flags : List Nat) (mask : Nat) (m : List Bool) (i : Nat) : List Bool :=
  if (flags.getD i 0 &&& mask) != 0 then m.set i true else m

/-- The ROC/row/pad loop nest of `setDeadChannelMapIDCPadStatus`,
linearised over the channel index space of size `n`: starting from the
freshly reset (`mDeadChannelMapIDC = false`) all-false map, set entries
whose flags intersect the mask. -/
def idcLoop (flags : List Nat) (mask : Nat) (n : Nat) : List Bool :=
  (List.range n).foldl (idcStep flags mask) (List.replicate n false)

/-- `DeadChannelMapCreator::setDeadChannelMapIDCPadStatus`: reset
`mDeadChannelMapIDC` to all-false, then walk every channel of the
topology and mark it dead iff `flags & mask` is non-zero. -/
def setDeadChannelMapIDCPadStatus (s : CreatorState) (padStatusMap : List Nat) (mask : Nat) : CreatorState :=
  { s with mDeadChannelMapIDC := idcLoop padStatusMap mask s.mDeadChannelMapIDC.length }

/-- The body of `finalizeDeadChannelMap` as a function of its inputs:
reset to an all-false map of the current derived-map size, then `+=`
the enabled sources' maps, IDC first, FEE second. -/
def composeFrom (sel : SourceSelection) (idc fee : List Bool) (n : Nat) : List Bool :=
  let m0 := List.replicate n false
  let m1 := if sel.useIDCPadStatus then calAddBool m0 idc else m0
  if sel.useFEEConfig then calAddBool m1 fee else m1

/-- `DeadChannelMapCreator::finalizeDeadChannelMap`. -/
def finalizeDeadChannelMap (s : CreatorState) : CreatorState :=
  { s with mDeadChannelMap :=
      composeFrom s.sources s.mDeadChannelMapIDC s.mDeadChannelMapFEE s.mDeadChannelMap.length }

/-- The same composition with the two `useSource` blocks in the
opposite order (FEE first), used only to state order-independence of
the composition. -/
def composeFromSwapped (sel : SourceSelection) (idc fee : List Bool) (n : Nat) : List Bool :=
  let m0 := List.replicate n false
  let m1 := if sel.useFEEConfig then calAddBool m0 fee else m0
  if sel.useIDCPadStatus then calAddBool m1 idc else m1

/-- `DeadChannelMapCreator::loadFEEConfig`.  `mFEEConfig.reset(...)`
replaces the cached payload with the fetch result unconditionally;
`std::stol(meta.at("Tag"))` runs before the null check; on success the
info log reads three further metadata fields and the FEE boolean map is
taken from the payload. -/
def loadFEEConfig (fetched : Option FEEConfig) (meta : CcdbMeta) (s : CreatorState) : Except Unit CreatorState :=
  let s1 := { s with mFEEConfig := fetched }
  match metaAt meta.tag with
  | Except.error e => Except.error e
  | Except.ok _tag =>
    match fetched with
    | none => Except.ok s1
    | some cfg =>
      match metaAt meta.validFrom, metaAt meta.etag, metaAt meta.lastModified with
      | Except.ok _, Except.ok _, Except.ok _ =>
        Except.ok { s1 with mDeadChannelMapFEE := cfg.getDeadChannelMap }
      | _, _, _ => Except.error ()

/-- `DeadChannelMapCreator::loadFEEConfigViaRunInfoTS`: shift the
timestamp by one minute, skip the fetch when the RunInfo validity
covers the shifted timestamp, otherwise fetch at the shifted
timestamp. -/
def loadFEEConfigViaRunInfoTS (fetchFEE : Int → Option FEEConfig × CcdbMeta) (timeStamp : Int) (s : CreatorState) : Except Unit (CreatorState × Option Int) :=
  let ts := timeStamp + 60000
  if s.validityRunInfo.isValid ts then Except.ok (s, none)
  else
    match loadFEEConfig (fetchFEE ts).1 (fetchFEE ts).2 s with
    | Except.error e => Except.error e
    | Except.ok s1 => Except.ok (s1, some ts)

/-- `DeadChannelMapCreator::loadFEEConfigViaRunInfo`: resolve the run
number / timestamp argument via `getTimeStamp` (declared in the header,
passed here as the external run-info collaborator) and delegate. -/
def loadFEEConfigViaRunInfo (getTimeStamp : Int → Int) (fetchFEE : Int → Option FEEConfig × CcdbMeta) (timeStampOrRun : Int) (s : CreatorState) : Except Unit (CreatorState × Option Int) :=
  loadFEEConfigViaRunInfoTS fetchFEE (getTimeStamp timeStampOrRun) s

/-- `DeadChannelMapCreator::loadIDCPadFlags`: resolve the timestamp,
skip when the recorded IDC validity covers it; otherwise fetch, copy
`Valid-From` then `Valid-Until` from the metadata into the validity
interval (before the null check), and only on a non-null payload
recompute the IDC boolean map and store the payload. -/
def loadIDCPadFlags (getTimeStamp : Int → Int) (fetchIDC : Int → Option (List Nat) × CcdbMeta) (mask : Nat) (timeStampOrRun : Int) (s : CreatorState) : Except Unit (CreatorState × Option Int) :=
  let ts := getTimeStamp timeStampOrRun
  if s.validityIDCPadStatus.isValid ts then Except.ok (s, none)
  else
    let fr := fetchIDC ts
    match metaAt fr.2.validFrom with
    | Except.error e => Except.error e
    | Except.ok vf =>
      let s1 := { s with validityIDCPadStatus :=
        { startvalidity := vf, endvalidity := s.validityIDCPadStatus.endvalidity } }
      match metaAt fr.2.validUntil with
      | Except.error e => Except.error e
      | Except.ok vu =>
        let s2 := { s1 with validityIDCPadStatus := { startvalidity := vf, endvalidity := vu } }
        match fr.1 with
        | none => Except.ok (s2, some ts)
        | some flags =>
          let s3 := setDeadChannelMapIDCPadStatus s2 flags mask
          Except.ok ({ s3 with mPadStatusMap := some flags }, some ts)

/-- `DeadChannelMapCreator::load`: resolve the timestamp once, run the
FEE refresh, then the IDC refresh (each resolves again through
`getTimeStamp`), then recompose the dead channel map.  The two `Option
Int` results are the timestamps of the FEE and IDC store calls. -/
def load (getTimeStamp : Int → Int) (fetchFEE : Int → Option FEEConfig × CcdbMeta) (fetchIDC : Int → Option (List Nat) × CcdbMeta) (mask : Nat) (timeStampOrRun : Int) (s : CreatorState) : Except Unit (CreatorState × Option Int × Option Int) :=
  let ts := getTimeStamp timeStampOrRun
  match loadFEEConfigViaRunInfo getTimeStamp fetchFEE ts s with
  | Except.error e => Except.error e
  | Except.ok (s1, trFEE) =>
    match loadIDCPadFlags getTimeStamp fetchIDC mask ts s1 with
    | Except.error e => Except.error e
    | Except.ok (s2, trIDC) =>
      Except.ok (finalizeDeadChannelMap s2, trFEE, trIDC)

/-- Modelled from the spec: cache slots are created empty at
construction (cold cache), boolean maps default to all-false over the
fixed channel space of size `n`. -/
def initialState (n : Nat) (sel : SourceSelection) : CreatorState :=
  { mFEEConfig := none
    mPadStatusMap := none
    mDeadChannelMapFEE := List.replicate n false
    mDeadChannelMapIDC := List.replicate n false
    mDeadChannelMap := List.replicate n false
    validityRunInfo := ValidityInterval.unset
    validityIDCPadStatus := ValidityInterval.unset
    sources := sel }

/-- A sequence of `load` calls, each with its own store replies,
selection mask and requested timestamp, aborting at the first uncaught
exception. -/
def loadSeq (getTS : Int → Int) :
    List ((Int → Option FEEConfig × CcdbMeta) × (Int → Option (List Nat) × CcdbMeta) × Nat × Int)
    → CreatorState → Except Unit CreatorState
  | [], s => Except.ok s
  | inp :: rest, s =>
    match load getTS inp.1 inp.2.1 inp.2.2.1 inp.2.2.2 s with
    | Except.error e => Except.error e
    | Except.ok (s1, _, _) => loadSeq getTS rest s1

/-! ## Concrete fixtures for witnesses and counterexamples -/

/-- A reply metadata map carrying every field the creator reads. -/
def exMetaFull : CcdbMeta :=
  { tag := some 1, validFrom := some 0, validUntil := some 1000,
    etag := some "e", lastModified := some "m" }

/-- A reply metadata map missing the `Tag` field. -/
def exMetaNoTag : CcdbMeta :=
  { tag := none, validFrom := some 0, validUntil := some 1000,
    etag := some "e", lastModified := some "m" }

/-- A reply metadata map missing both validity bounds. -/
def exMetaNoBounds : CcdbMeta :=
  { tag := some 1, validFrom := none, validUntil := none,
    etag := some "e", lastModified := some "m" }

/-- A one-channel FEE configuration payload. -/
def exCfg : FEEConfig := { deadChannelMap := [true] }

/-- A freshly constructed creator over one channel with both sources
enabled. -/
def exState0 : CreatorState :=
  initialState 1 { useIDCPadStatus := true, useFEEConfig := true }

/-- `exState0` after one fully successful `load` at timestamp 100
against a store answering with `exCfg`, flags `[1]` and `exMetaFull`. -/
def exStateLoaded : CreatorState :=
  { mFEEConfig := some exCfg
    mPadStatusMap := some [1]
    mDeadChannelMapFEE := [true]
    mDeadChannelMapIDC := [true]
    mDeadChannelMap := [true]
    validityRunInfo := ValidityInterval.unset
    validityIDCPadStatus := { startvalidity := 0, endvalidity := 1000 }
    sources := { useIDCPadStatus := true, useFEEConfig := true } }

/-- `exStateLoaded` with the FEE payload dropped. -/
def exStateDroppedFEE : CreatorState :=
  { exStateLoaded with mFEEConfig := none }

/-- `exState0` after an IDC refresh whose fetch returned no payload but
full metadata: only the validity window changed. -/
def exStateIdcFailed : CreatorState :=
  { exState0 with validityIDCPadStatus := { startvalidity := 0, endvalidity := 1000 } }

/-- `exState0` after one `load` whose FEE fetch succeeded and whose IDC
fetch returned no payload but full metadata. -/
def exStateHalfLoaded : CreatorState :=
  { mFEEConfig := some exCfg
    mPadStatusMap := none
    mDeadChannelMapFEE := [true]
    mDeadChannelMapIDC := [false]
    mDeadChannelMap := [true]
    validityRunInfo := ValidityInterval.unset
    validityIDCPadStatus := { startvalidity := 0, endvalidity := 1000 }
    sources := { useIDCPadStatus := true, useFEEConfig := true } }

/-- `exState0` after a successful IDC-only refresh at timestamp 100
(the FEE source untouched). -/
def exStateIdcLoaded : CreatorState :=
  { mFEEConfig := none
    mPadStatusMap := some [1]
    mDeadChannelMapFEE := [false]
    mDeadChannelMapIDC := [true]
    mDeadChannelMap := [false]
    validityRunInfo := ValidityInterval.unset
    validityIDCPadStatus := { startvalidity := 0, endvalidity := 1000 }
    sources := { useIDCPadStatus := true, useFEEConfig := true } }

/-- A two-channel creator state with distinct per-source maps and a
stale non-false derived map. -/
def exampleState2 : CreatorState :=
  { mFEEConfig := none
    mPadStatusMap := none
    mDeadChannelMapFEE := [false, true]
    mDeadChannelMapIDC := [true, false]
    mDeadChannelMap := [true, true]
    validityRunInfo := ValidityInterval.unset
    validityIDCPadStatus := ValidityInterval.unset
    sources := { useIDCPadStatus := true, useFEEConfig := true } }

/-! ## Helper lemmas -/

theorem eq_of_getD (a b : List Bool) (hlen : a.length = b.length)
    (h : ∀ i, i < a.length → a.getD i false = b.getD i false) : a = b := by
  apply List.ext_getElem hlen
  intro i h1 h2
  have hi := h i h1
  rwa [List.getD_eq_getElem _ _ h1, List.getD_eq_getElem _ _ h2] at hi

theorem getD_replicate_false (n i : Nat) : (List.replicate n false).getD i false = false := by
  by_cases hi : i < n
  · rw [List.getD_eq_getElem _ _ (by simpa using hi)]
    exact List.getElem_replicate _ _
  · rw [List.getD_eq_default _ _ (by simpa using Nat.le_of_not_lt hi)]

theorem idcStep_length (flags : List Nat) (mask : Nat) (m : List Bool) (i : Nat) :
    (idcStep flags mask m i).length = m.length := by
  unfold idcStep; split <;> simp

theorem idcStep_getD (flags : List Nat) (mask : Nat) (m : List Bool) (a j : Nat)
    (hj : j < m.length) :
    (idcStep flags mask m a).getD j false
      = (m.getD j false || (decide (a = j) && (flags.getD j 0 &&& mask != 0))) := by
  unfold idcStep
  by_cases haj : a = j
  · subst haj
    split
    · rename_i hcond
      rw [List.getD_eq_getElem _ _ (by simpa using hj), List.getElem_set, if_pos rfl, hcond,
        Bool.and_true, decide_eq_true rfl, Bool.or_true]
    · rename_i hcond
      rw [Bool.not_eq_true] at hcond
      rw [hcond, Bool.and_false, Bool.or_false]
  · split
    · rw [List.getD_eq_getElem _ _ (by simpa using hj), List.getElem_set,
        if_neg haj, ← List.getD_eq_getElem _ false hj, decide_eq_false haj,
        Bool.false_and, Bool.or_false]
    · rw [decide_eq_false haj, Bool.false_and, Bool.or_false]

theorem foldl_idcStep_length (flags : List Nat) (mask : Nat) (l : List Nat) (m : List Bool) :
    (l.foldl (idcStep flags mask) m).length = m.length := by
  induction l generalizing m with
  | nil => rfl
  | cons a tl ih => rw [List.foldl_cons, ih, idcStep_length]

theorem foldl_idcStep_getD (flags : List Nat) (mask : Nat) (l : List Nat) (m : List Bool)
    (j : Nat) (hj : j < m.length) :
    (l.foldl (idcStep flags mask) m).getD j false
      = (m.getD j false || (decide (j ∈ l) && (flags.getD j 0 &&& mask != 0))) := by
  induction l generalizing m with
  | nil => simp
  | cons a tl ih =>
    rw [List.foldl_cons, ih _ (by rw [idcStep_length]; exact hj), idcStep_getD _ _ _ _ _ hj,
      Bool.or_assoc]
    congr 1
    by_cases h1 : a = j
    · subst h1
      cases hP : (flags.getD a 0 &&& mask != 0) <;> simp [List.mem_cons, hP]
    · have h1' : ¬j = a := fun h => h1 h.symm
      simp [List.mem_cons, h1, h1']

theorem idcLoop_length (flags : List Nat) (mask n : Nat) : (idcLoop flags mask n).length = n := by
  unfold idcLoop; rw [foldl_idcStep_length, List.length_replicate]

theorem idcLoop_getD (flags : List Nat) (mask n j : Nat) (hj : j < n) :
    (idcLoop flags mask n).getD j false = (flags.getD j 0 &&& mask != 0) := by
  unfold idcLoop
  rw [foldl_idcStep_getD _ _ _ _ _ (by simpa using hj), getD_replicate_false]
  simp [List.mem_range, hj]

theorem calAddBool_length (a b : List Bool) :
    (calAddBool a b).length = min a.length b.length := List.length_zipWith or a b

theorem calAddBool_getD (a b : List Bool) (i : Nat) (ha : i < a.length) (hb : i < b.length) :
    (calAddBool a b).getD i false = (a.getD i false || b.getD i false) := by
  unfold calAddBool
  rw [List.getD_eq_getElem _ _ (by rw [List.length_zipWith]; omega),
    List.getD_eq_getElem _ _ ha, List.getD_eq_getElem _ _ hb, List.getElem_zipWith]

theorem calAddBool_replicate (m : List Bool) :
    calAddBool (List.replicate m.length false) m = m := by
  induction m with
  | nil => rfl
  | cons x xs ih =>
    simp only [List.length_cons, List.replicate_succ, calAddBool, List.zipWith_cons_cons,
      Bool.false_or] at ih ⊢
    exact congrArg (x :: ·) ih

theorem composeFrom_length (sel : SourceSelection) (idc fee : List Bool) (n : Nat)
    (hidc : idc.length = n) (hfee : fee.length = n) :
    (composeFrom sel idc fee n).length = n := by
  unfold composeFrom
  cases sel.useIDCPadStatus <;> cases sel.useFEEConfig <;>
    simp [calAddBool_length, hidc, hfee]

theorem composeFrom_getD (sel : SourceSelection) (idc fee : List Bool) (n i : Nat)
    (hidc : idc.length = n) (hfee : fee.length = n) (hi : i < n) :
    (composeFrom sel idc fee n).getD i false
      = ((sel.useIDCPadStatus && idc.getD i false) || (sel.useFEEConfig && fee.getD i false)) := by
  unfold composeFrom
  cases sel.useIDCPadStatus <;> cases sel.useFEEConfig
  · rw [if_neg Bool.false_ne_true, if_neg Bool.false_ne_true, getD_replicate_false,
      Bool.false_and, Bool.false_and, Bool.or_false]
  · rw [if_pos rfl, if_neg Bool.false_ne_true,
      calAddBool_getD _ _ _ (by simpa using hi) (by omega), getD_replicate_false,
      Bool.false_or, Bool.false_and, Bool.true_and, Bool.false_or]
  · rw [if_neg Bool.false_ne_true, if_pos rfl,
      calAddBool_getD _ _ _ (by simpa using hi) (by omega), getD_replicate_false,
      Bool.false_or, Bool.false_and, Bool.true_and, Bool.or_false]
  · rw [if_pos rfl, if_pos rfl,
      calAddBool_getD _ _ _ (by rw [calAddBool_length]; simp; omega) (by omega),
      calAddBool_getD _ _ _ (by simpa using hi) (by omega), getD_replicate_false,
      Bool.false_or, Bool.true_and, Bool.true_and]

theorem composeFromSwapped_length (sel : SourceSelection) (idc fee : List Bool) (n : Nat)
    (hidc : idc.length = n) (hfee : fee.length = n) :
    (composeFromSwapped sel idc fee n).length = n := by
  unfold composeFromSwapped
  cases sel.useIDCPadStatus <;> cases sel.useFEEConfig <;>
    simp [calAddBool_length, hidc, hfee]

theorem composeFromSwapped_getD (sel : SourceSelection) (idc fee : List Bool) (n i : Nat)
    (hidc : idc.length = n) (hfee : fee.length = n) (hi : i < n) :
    (composeFromSwapped sel idc fee n).getD i false
      = ((sel.useIDCPadStatus && idc.getD i false) || (sel.useFEEConfig && fee.getD i false)) := by
  unfold composeFromSwapped
  cases sel.useIDCPadStatus <;> cases sel.useFEEConfig
  · rw [if_neg Bool.false_ne_true, if_neg Bool.false_ne_true, getD_replicate_false,
      Bool.false_and, Bool.false_and, Bool.or_false]
  · rw [if_neg Bool.false_ne_true, if_pos rfl,
      calAddBool_getD _ _ _ (by simpa using hi) (by omega), getD_replicate_false,
      Bool.false_or, Bool.false_and, Bool.true_and, Bool.false_or]
  · rw [if_pos rfl, if_neg Bool.false_ne_true,
      calAddBool_getD _ _ _ (by simpa using hi) (by omega), getD_replicate_false,
      Bool.false_or, Bool.false_and, Bool.true_and, Bool.or_false]
  · rw [if_pos rfl, if_pos rfl,
      calAddBool_getD _ _ _ (by rw [calAddBool_length]; simp; omega) (by omega),
      calAddBool_getD _ _ _ (by simpa using hi) (by omega), getD_replicate_false,
      Bool.false_or, Bool.true_and, Bool.true_and, Bool.or_comm]

theorem composeFrom_eq_swapped (sel : SourceSelection) (idc fee : List Bool) (n : Nat)
    (hidc : idc.length = n) (hfee : fee.length = n) :
    composeFrom sel idc fee n = composeFromSwapped sel idc fee n := by
  apply eq_of_getD
  · rw [composeFrom_length sel idc fee n hidc hfee,
      composeFromSwapped_length sel idc fee n hidc hfee]
  · intro i hi
    rw [composeFrom_length sel idc fee n hidc hfee] at hi
    rw [composeFrom_getD sel idc fee n i hidc hfee hi,
      composeFromSwapped_getD sel idc fee n i hidc hfee hi]

theorem composeFrom_all_false (sel : SourceSelection) (idc fee : List Bool) (n : Nat)
    (hI : sel.useIDCPadStatus = false) (hF : sel.useFEEConfig = false) :
    composeFrom sel idc fee n = List.replicate n false := by
  unfold composeFrom
  rw [hI, hF, if_neg Bool.false_ne_true, if_neg Bool.false_ne_true]

theorem composeFrom_only_idc (sel : SourceSelection) (idc fee : List Bool)
    (hI : sel.useIDCPadStatus = true) (hF : sel.useFEEConfig = false) :
    composeFrom sel idc fee idc.length = idc := by
  unfold composeFrom
  simp only [hI, hF, Bool.false_eq_true, if_false, if_true]
  exact calAddBool_replicate idc

theorem composeFrom_only_fee (sel : SourceSelection) (idc fee : List Bool)
    (hI : sel.useIDCPadStatus = false) (hF : sel.useFEEConfig = true) :
    composeFrom sel idc fee fee.length = fee := by
  unfold composeFrom
  simp only [hI, hF, Bool.false_eq_true, if_false, if_true]
  exact calAddBool_replicate fee

/-- Fields of the state a successful `loadFEEConfig` keeps or sets. -/
theorem loadFEEConfig_ok_shape (fetched : Option FEEConfig) (meta : CcdbMeta)
    (s s1 : CreatorState) (h : loadFEEConfig fetched meta s = Except.ok s1) :
    s1.mFEEConfig = fetched ∧ s1.mPadStatusMap = s.mPadStatusMap ∧
    s1.mDeadChannelMapIDC = s.mDeadChannelMapIDC ∧ s1.mDeadChannelMap = s.mDeadChannelMap ∧
    s1.validityRunInfo = s.validityRunInfo ∧
    s1.validityIDCPadStatus = s.validityIDCPadStatus ∧ s1.sources = s.sources := by
  revert h
  unfold loadFEEConfig metaAt
  cases meta.tag <;> cases fetched <;>
    cases meta.validFrom <;> cases meta.etag <;> cases meta.lastModified <;>
    intro h <;>
    first
      | exact Except.noConfusion h
      | (injection h with h; subst h; exact ⟨rfl, rfl, rfl, rfl, rfl, rfl, rfl⟩)

/-- Fields of the state a successful `loadIDCPadFlags` keeps. -/
theorem loadIDCPadFlags_ok_shape (getTimeStamp : Int → Int)
    (fetchIDC : Int → Option (List Nat) × CcdbMeta) (mask : Nat) (timeStampOrRun : Int)
    (s s1 : CreatorState) (tr : Option Int)
    (h : loadIDCPadFlags getTimeStamp fetchIDC mask timeStampOrRun s = Except.ok (s1, tr)) :
    s1.mFEEConfig = s.mFEEConfig ∧ s1.mDeadChannelMapFEE = s.mDeadChannelMapFEE ∧
    s1.mDeadChannelMap = s.mDeadChannelMap ∧ s1.validityRunInfo = s.validityRunInfo ∧
    s1.sources = s.sources ∧ s1.mDeadChannelMapIDC.length = s.mDeadChannelMapIDC.length := by
  revert h
  unfold loadIDCPadFlags metaAt setDeadChannelMapIDCPadStatus
  dsimp only
  split <;>
    [skip;
     cases (fetchIDC (getTimeStamp timeStampOrRun)).2.validFrom <;>
       cases (fetchIDC (getTimeStamp timeStampOrRun)).2.validUntil <;>
       cases (fetchIDC (getTimeStamp timeStampOrRun)).1] <;>
    intro h <;>
    first
      | exact Except.noConfusion h
      | (injection h with h
         rw [Prod.mk.injEq] at h
         obtain ⟨h1, h2⟩ := h
         subst h1
         exact ⟨rfl, rfl, rfl, rfl, rfl, idcLoop_length _ _ _⟩)
      | (injection h with h
         rw [Prod.mk.injEq] at h
         obtain ⟨h1, h2⟩ := h
         subst h1
         exact ⟨rfl, rfl, rfl, rfl, rfl, rfl⟩)

/-- `loadFEEConfig` neither reads nor writes `mDeadChannelMap`. -/
theorem loadFEEConfig_setDerived (fetched : Option FEEConfig) (meta : CcdbMeta)
    (s : CreatorState) (d : List Bool) :
    loadFEEConfig fetched meta { s with mDeadChannelMap := d }
      = Except.map (fun t => { t with mDeadChannelMap := d }) (loadFEEConfig fetched meta s) := by
  unfold loadFEEConfig metaAt
  cases meta.tag <;> cases fetched <;>
    cases meta.validFrom <;> cases meta.etag <;> cases meta.lastModified <;> rfl

/-- `loadFEEConfigViaRunInfoTS` neither reads nor writes `mDeadChannelMap`. -/
theorem loadFEEConfigViaRunInfoTS_setDerived (fetchFEE : Int → Option FEEConfig × CcdbMeta)
    (timeStamp : Int) (s : CreatorState) (d : List Bool) :
    loadFEEConfigViaRunInfoTS fetchFEE timeStamp { s with mDeadChannelMap := d }
      = Except.map (fun p => ({ p.1 with mDeadChannelMap := d }, p.2))
          (loadFEEConfigViaRunInfoTS fetchFEE timeStamp s) := by
  unfold loadFEEConfigViaRunInfoTS
  dsimp only
  split
  · rfl
  · rw [loadFEEConfig_setDerived]
    cases loadFEEConfig (fetchFEE (timeStamp + 60000)).1 (fetchFEE (timeStamp + 60000)).2 s <;> rfl

/-- `loadIDCPadFlags` reads `mDeadChannelMap` only through the length of
`mDeadChannelMapIDC` (which is untouched) and never writes it. -/
theorem loadIDCPadFlags_setDerived (getTimeStamp : Int → Int)
    (fetchIDC : Int → Option (List Nat) × CcdbMeta) (mask : Nat) (timeStampOrRun : Int)
    (s : CreatorState) (d : List Bool) :
    loadIDCPadFlags getTimeStamp fetchIDC mask timeStampOrRun { s with mDeadChannelMap := d }
      = Except.map (fun p => ({ p.1 with mDeadChannelMap := d }, p.2))
          (loadIDCPadFlags getTimeStamp fetchIDC mask timeStampOrRun s) := by
  unfold loadIDCPadFlags metaAt
  dsimp only
  split
  · rfl
  · cases (fetchIDC (getTimeStamp timeStampOrRun)).2.validFrom <;>
      cases (fetchIDC (getTimeStamp timeStampOrRun)).2.validUntil <;>
      cases (fetchIDC (getTimeStamp timeStampOrRun)).1 <;> rfl

/-- Fields of the state a successful `loadFEEConfigViaRunInfoTS` keeps. -/
theorem loadFEEConfigViaRunInfoTS_ok_shape (fetchFEE : Int → Option FEEConfig × CcdbMeta)
    (timeStamp : Int) (s s1 : CreatorState) (tr : Option Int)
    (h : loadFEEConfigViaRunInfoTS fetchFEE timeStamp s = Except.ok (s1, tr)) :
    s1.mPadStatusMap = s.mPadStatusMap ∧ s1.mDeadChannelMapIDC = s.mDeadChannelMapIDC ∧
    s1.mDeadChannelMap = s.mDeadChannelMap ∧ s1.validityRunInfo = s.validityRunInfo ∧
    s1.validityIDCPadStatus = s.validityIDCPadStatus ∧ s1.sources = s.sources := by
  revert h
  unfold loadFEEConfigViaRunInfoTS
  dsimp only
  split
  · intro h
    injection h with h
    rw [Prod.mk.injEq] at h
    obtain ⟨h1, h2⟩ := h
    subst h1
    exact ⟨rfl, rfl, rfl, rfl, rfl, rfl⟩
  · intro h
    cases hc : loadFEEConfig (fetchFEE (timeStamp + 60000)).1 (fetchFEE (timeStamp + 60000)).2 s with
    | error e => rw [hc] at h; exact Except.noConfusion h
    | ok t =>
      rw [hc] at h
      dsimp only at h
      injection h with h
      rw [Prod.mk.injEq] at h
      obtain ⟨h1, h2⟩ := h
      subst h1
      obtain ⟨-, e2, e3, e4, e5, e6, e7⟩ := loadFEEConfig_ok_shape _ _ _ _ hc
      exact ⟨e2, e3, e4, e5, e6, e7⟩

/-- A completed `loadIDCPadFlags` either leaves the IDC payload alone
or stores a freshly fetched one. -/
theorem loadIDCPadFlags_payload (getTimeStamp : Int → Int)
    (fetchIDC : Int → Option (List Nat) × CcdbMeta) (mask : Nat) (timeStampOrRun : Int)
    (s s1 : CreatorState) (tr : Option Int)
    (h : loadIDCPadFlags getTimeStamp fetchIDC mask timeStampOrRun s = Except.ok (s1, tr)) :
    s1.mPadStatusMap = s.mPadStatusMap ∨ s1.mPadStatusMap.isSome = true := by
  revert h
  unfold loadIDCPadFlags metaAt setDeadChannelMapIDCPadStatus
  dsimp only
  split <;>
    [skip;
     cases (fetchIDC (getTimeStamp timeStampOrRun)).2.validFrom <;>
       cases (fetchIDC (getTimeStamp timeStampOrRun)).2.validUntil <;>
       cases (fetchIDC (getTimeStamp timeStampOrRun)).1] <;>
    intro h <;>
    first
      | exact Except.noConfusion h
      | (injection h with h
         rw [Prod.mk.injEq] at h
         obtain ⟨h1, h2⟩ := h
         subst h1
         first
           | exact Or.inl rfl
           | exact Or.inr rfl)

/-! ## The claims -/

/-- C7: for every timestamp `T` and every populated validity window
with bounds `s`/`e`, the validity predicate returns `true` iff
`s ≤ T ∧ T < e` (half-open, including equality at the start and
excluding the end); the unset window returns `false` for every
timestamp. -/
theorem C7_validity_halfOpen (s e T : Int) (hpop : s < e) :
    ((({ startvalidity := s, endvalidity := e } : ValidityInterval).isValid T = true)
      ↔ (s ≤ T ∧ T < e)) ∧
    ValidityInterval.unset.isValid T = false := by
  constructor
  · simp [ValidityInterval.isValid]
  · have : ¬((0 : Int) ≤ T ∧ T < -1) := by omega
    simpa [ValidityInterval.isValid, ValidityInterval.unset] using this

/-- Witness for C7 at the populated window `[0, 200)` and timestamp
`100`. -/
theorem C7_validity_halfOpen_witness :
    ((({ startvalidity := 0, endvalidity := 200 } : ValidityInterval).isValid 100 = true)
      ↔ ((0 : Int) ≤ 100 ∧ (100 : Int) < 200)) ∧
    ValidityInterval.unset.isValid 100 = false :=
  C7_validity_halfOpen 0 200 100 (by decide)

/-- C4: mask extraction starts from a fresh all-false map and sets the
output entry of every channel to `true` iff the channel's flags AND the
mask is non-zero; with mask `0` the output is all-false regardless of
the flags; and the output depends only on the current flag map and mask
(never on the prior extraction result). -/
theorem C4_mask_extraction (s : CreatorState) (flags : List Nat) (mask : Nat)
    (hlen : flags.length = s.mDeadChannelMapIDC.length) :
    (setDeadChannelMapIDCPadStatus s flags mask).mDeadChannelMapIDC.length
        = s.mDeadChannelMapIDC.length ∧
    (∀ i, i < s.mDeadChannelMapIDC.length →
      (setDeadChannelMapIDCPadStatus s flags mask).mDeadChannelMapIDC.getD i false
        = (flags.getD i 0 &&& mask != 0)) ∧
    (mask = 0 → (setDeadChannelMapIDCPadStatus s flags mask).mDeadChannelMapIDC
        = List.replicate s.mDeadChannelMapIDC.length false) ∧
    (∀ t : CreatorState, t.mDeadChannelMapIDC.length = s.mDeadChannelMapIDC.length →
      (setDeadChannelMapIDCPadStatus t flags mask).mDeadChannelMapIDC
        = (setDeadChannelMapIDCPadStatus s flags mask).mDeadChannelMapIDC) := by
  refine ⟨idcLoop_length _ _ _, ?_, ?_, ?_⟩
  · intro i hi
    exact idcLoop_getD flags mask _ i hi
  · intro h0
    subst h0
    show idcLoop flags 0 s.mDeadChannelMapIDC.length
        = List.replicate s.mDeadChannelMapIDC.length false
    apply eq_of_getD
    · rw [idcLoop_length, List.length_replicate]
    · intro i hi
      rw [idcLoop_length] at hi
      rw [idcLoop_getD flags 0 _ i hi, getD_replicate_false]
      simp
  · intro t ht
    show idcLoop flags mask t.mDeadChannelMapIDC.length
        = idcLoop flags mask s.mDeadChannelMapIDC.length
    rw [ht]

/-- Witness for C4: extracting with mask `0` over two channels yields
the all-false map. -/
theorem C4_mask_extraction_witness :
    (setDeadChannelMapIDCPadStatus exampleState2 [3, 0] 0).mDeadChannelMapIDC
      = List.replicate exampleState2.mDeadChannelMapIDC.length false :=
  (C4_mask_extraction exampleState2 [3, 0] 0 rfl).2.2.1 rfl

/-- C3: the finalized derived map is the channel-wise OR of exactly the
enabled sources' maps, recomputed from a fresh all-false map: it is
order-independent (equals the composition with the sources combined in
the opposite order), stable under recomposition with unchanged inputs,
all-false when no source is enabled (for any prior derived map), and
bit-for-bit equal to the single enabled source's map. -/
theorem C3_composition (s : CreatorState) (n : Nat)
    (hidc : s.mDeadChannelMapIDC.length = n) (hfee : s.mDeadChannelMapFEE.length = n)
    (hd : s.mDeadChannelMap.length = n) :
    (∀ i, i < n →
      (finalizeDeadChannelMap s).mDeadChannelMap.getD i false
        = ((s.sources.useIDCPadStatus && s.mDeadChannelMapIDC.getD i false)
            || (s.sources.useFEEConfig && s.mDeadChannelMapFEE.getD i false))) ∧
    (finalizeDeadChannelMap s).mDeadChannelMap
        = composeFromSwapped s.sources s.mDeadChannelMapIDC s.mDeadChannelMapFEE n ∧
    (finalizeDeadChannelMap (finalizeDeadChannelMap s)).mDeadChannelMap
        = (finalizeDeadChannelMap s).mDeadChannelMap ∧
    (s.sources.useIDCPadStatus = false → s.sources.useFEEConfig = false →
      (finalizeDeadChannelMap s).mDeadChannelMap = List.replicate n false) ∧
    (s.sources.useIDCPadStatus = true → s.sources.useFEEConfig = false →
      (finalizeDeadChannelMap s).mDeadChannelMap = s.mDeadChannelMapIDC) ∧
    (s.sources.useIDCPadStatus = false → s.sources.useFEEConfig = true →
      (finalizeDeadChannelMap s).mDeadChannelMap = s.mDeadChannelMapFEE) := by
  have hfin : (finalizeDeadChannelMap s).mDeadChannelMap
      = composeFrom s.sources s.mDeadChannelMapIDC s.mDeadChannelMapFEE n := by
    show composeFrom s.sources s.mDeadChannelMapIDC s.mDeadChannelMapFEE
        s.mDeadChannelMap.length = _
    rw [hd]
  have hlen : (finalizeDeadChannelMap s).mDeadChannelMap.length = n := by
    rw [hfin]
    exact composeFrom_length _ _ _ _ hidc hfee
  refine ⟨?_, ?_, ?_, ?_, ?_, ?_⟩
  · intro i hi
    rw [hfin]
    exact composeFrom_getD _ _ _ _ _ hidc hfee hi
  · rw [hfin]
    exact composeFrom_eq_swapped _ _ _ _ hidc hfee
  · have houter : (finalizeDeadChannelMap (finalizeDeadChannelMap s)).mDeadChannelMap
        = composeFrom s.sources s.mDeadChannelMapIDC s.mDeadChannelMapFEE
            (finalizeDeadChannelMap s).mDeadChannelMap.length := rfl
    rw [houter, hlen, hfin]
  · intro hI hF
    rw [hfin]
    exact composeFrom_all_false _ _ _ _ hI hF
  · intro hI hF
    rw [hfin, ← hidc]
    exact composeFrom_only_idc _ _ _ hI hF
  · intro hI hF
    rw [hfin, ← hfee]
    exact composeFrom_only_fee _ _ _ hI hF

/-- Witness for C3: over the two-channel state the composition equals
the composition taken in the opposite source order. -/
theorem C3_composition_witness :
    (finalizeDeadChannelMap exampleState2).mDeadChannelMap
      = composeFromSwapped exampleState2.sources exampleState2.mDeadChannelMapIDC
          exampleState2.mDeadChannelMapFEE 2 :=
  (C3_composition exampleState2 2 rfl rfl rfl).2.1

/-- C10: the FEE-configuration path first shifts the requested
timestamp by exactly 60000 ms and uses the shifted value both for the
validity check and for the fetch (the loader's result depends on the
store oracle only through its reply at the shifted timestamp), while
the IDC path checks and fetches at the unshifted resolved timestamp. -/
theorem C10_fee_shift (fetchFEE fetchFEE2 : Int → Option FEEConfig × CcdbMeta)
    (getTS : Int → Int) (fetchIDC fetchIDC2 : Int → Option (List Nat) × CcdbMeta)
    (mask : Nat) (ts : Int) (s : CreatorState) (hres : getTS ts = ts) :
    (s.validityRunInfo.isValid (ts + 60000) = true →
       loadFEEConfigViaRunInfoTS fetchFEE ts s = Except.ok (s, none)) ∧
    (s.validityRunInfo.isValid (ts + 60000) = false →
       ∀ s1 tr, loadFEEConfigViaRunInfoTS fetchFEE ts s = Except.ok (s1, tr) →
         tr = some (ts + 60000)) ∧
    (fetchFEE (ts + 60000) = fetchFEE2 (ts + 60000) →
       loadFEEConfigViaRunInfoTS fetchFEE ts s = loadFEEConfigViaRunInfoTS fetchFEE2 ts s) ∧
    (s.validityIDCPadStatus.isValid ts = true →
       loadIDCPadFlags getTS fetchIDC mask ts s = Except.ok (s, none)) ∧
    (s.validityIDCPadStatus.isValid ts = false →
       ∀ s1 tr, loadIDCPadFlags getTS fetchIDC mask ts s = Except.ok (s1, tr) →
         tr = some ts) ∧
    (fetchIDC ts = fetchIDC2 ts →
       loadIDCPadFlags getTS fetchIDC mask ts s = loadIDCPadFlags getTS fetchIDC2 mask ts s) := by
  refine ⟨?_, ?_, ?_, ?_, ?_, ?_⟩
  · intro hv
    unfold loadFEEConfigViaRunInfoTS
    dsimp only
    rw [if_pos hv]
  · intro hv s1 tr h
    unfold loadFEEConfigViaRunInfoTS at h
    dsimp only at h
    rw [if_neg (by simp [hv])] at h
    cases hc : loadFEEConfig (fetchFEE (ts + 60000)).1 (fetchFEE (ts + 60000)).2 s with
    | error e => rw [hc] at h; exact Except.noConfusion h
    | ok t =>
      rw [hc] at h
      dsimp only at h
      injection h with h
      rw [Prod.mk.injEq] at h
      exact h.2.symm
  · intro hf
    unfold loadFEEConfigViaRunInfoTS
    dsimp only
    rw [hf]
  · intro hv
    unfold loadIDCPadFlags
    dsimp only
    rw [hres, if_pos hv]
  · intro hv s1 tr h
    unfold loadIDCPadFlags metaAt at h
    dsimp only at h
    rw [hres, if_neg (by simp [hv])] at h
    revert h
    cases (fetchIDC ts).2.validFrom <;>
      cases (fetchIDC ts).2.validUntil <;>
      cases (fetchIDC ts).1 <;>
      intro h <;>
      first
        | exact Except.noConfusion h
        | (injection h with h
           rw [Prod.mk.injEq] at h
           exact h.2.symm)
  · intro hf
    unfold loadIDCPadFlags
    dsimp only
    rw [hres, hf]

/-- Witness for C10: with the RunInfo window unset, the FEE fetch of a
load requested at timestamp 100 happens at timestamp 60100. -/
theorem C10_fee_shift_witness : (some (60100 : Int)) = some ((100 : Int) + 60000) :=
  (C10_fee_shift (fun _ => (some exCfg, exMetaFull)) (fun _ => (some exCfg, exMetaFull))
      (fun t => t) (fun _ => (some [1], exMetaFull)) (fun _ => (some [1], exMetaFull))
      1 100 exState0 rfl).2.1 rfl
    { exState0 with mFEEConfig := some exCfg, mDeadChannelMapFEE := [true] }
    (some 60100) rfl

/-- C9: after every completed `load` call the derived map equals the
full recomputation `composeFrom` of the post-call per-source boolean
maps and the enabled-source selection; and the call's outcome is
independent of whatever derived map was resident before the call. -/
theorem C9_derived_recomputed (getTS : Int → Int)
    (fFEE : Int → Option FEEConfig × CcdbMeta) (fIDC : Int → Option (List Nat) × CcdbMeta)
    (mask : Nat) (ts : Int) (s s2 : CreatorState) (trF trI : Option Int)
    (h : load getTS fFEE fIDC mask ts s = Except.ok (s2, trF, trI)) :
    s2.mDeadChannelMap = composeFrom s2.sources s2.mDeadChannelMapIDC s2.mDeadChannelMapFEE
        s.mDeadChannelMap.length ∧
    ∀ d : List Bool, d.length = s.mDeadChannelMap.length →
      load getTS fFEE fIDC mask ts { s with mDeadChannelMap := d }
        = Except.ok (s2, trF, trI) := by
  unfold load at h
  dsimp only at h
  cases hF : loadFEEConfigViaRunInfo getTS fFEE (getTS ts) s with
  | error e => rw [hF] at h; exact Except.noConfusion h
  | ok p =>
    obtain ⟨sA, trA⟩ := p
    rw [hF] at h
    dsimp only at h
    cases hI : loadIDCPadFlags getTS fIDC mask (getTS ts) sA with
    | error e => rw [hI] at h; exact Except.noConfusion h
    | ok q =>
      obtain ⟨sB, trB⟩ := q
      rw [hI] at h
      dsimp only at h
      injection h with h
      rw [Prod.mk.injEq] at h
      obtain ⟨h1, h23⟩ := h
      rw [Prod.mk.injEq] at h23
      obtain ⟨h2, h3⟩ := h23
      subst h1
      subst h2
      subst h3
      have hF' : loadFEEConfigViaRunInfoTS fFEE (getTS (getTS ts)) s
          = Except.ok (sA, trA) := hF
      have eF := loadFEEConfigViaRunInfoTS_ok_shape _ _ _ _ _ hF'
      have eI := loadIDCPadFlags_ok_shape _ _ _ _ _ _ _ hI
      have hml : sB.mDeadChannelMap = s.mDeadChannelMap := by
        rw [eI.2.2.1, eF.2.2.1]
      constructor
      · show composeFrom sB.sources sB.mDeadChannelMapIDC sB.mDeadChannelMapFEE
            sB.mDeadChannelMap.length
          = composeFrom sB.sources sB.mDeadChannelMapIDC sB.mDeadChannelMapFEE
            s.mDeadChannelMap.length
        rw [hml]
      · intro d hd
        unfold load
        dsimp only
        rw [show loadFEEConfigViaRunInfo getTS fFEE (getTS ts) { s with mDeadChannelMap := d }
            = loadFEEConfigViaRunInfoTS fFEE (getTS (getTS ts)) { s with mDeadChannelMap := d }
          from rfl]
        rw [loadFEEConfigViaRunInfoTS_setDerived, hF']
        dsimp only [Except.map]
        rw [loadIDCPadFlags_setDerived, hI]
        dsimp only [Except.map]
        have hfin : finalizeDeadChannelMap { sB with mDeadChannelMap := d }
            = finalizeDeadChannelMap sB := by
          show ({ sB with mDeadChannelMap := (composeFrom sB.sources sB.mDeadChannelMapIDC
              sB.mDeadChannelMapFEE d.length) } : CreatorState)
            = { sB with mDeadChannelMap := (composeFrom sB.sources sB.mDeadChannelMapIDC
                sB.mDeadChannelMapFEE sB.mDeadChannelMap.length) }
          rw [hd, hml]
        rw [hfin]

/-- Witness for C9: the derived map produced by a concrete successful
load over one channel equals its full recomputation. -/
theorem C9_derived_recomputed_witness :
    exStateLoaded.mDeadChannelMap
      = composeFrom exStateLoaded.sources exStateLoaded.mDeadChannelMapIDC
          exStateLoaded.mDeadChannelMapFEE exState0.mDeadChannelMap.length :=
  (C9_derived_recomputed (fun t => t) (fun _ => (some exCfg, exMetaFull))
      (fun _ => (some [1], exMetaFull)) 1 100 exState0 exStateLoaded
      (some 60100) (some 100) rfl).1

/-- C1 counterexample: an IDC refresh whose fetch returns no payload
but whose reply metadata carries validity bounds `[0, 1000)` DOES
modify the source's validity window; the next load inside those bounds
then skips the source entirely (no retry), although its payload is
still absent. -/
theorem C1_counterexample :
    loadIDCPadFlags (fun t => t) (fun _ => (none, exMetaFull)) 1 100 exState0
        = Except.ok (exStateIdcFailed, some 100) ∧
    exStateIdcFailed.validityIDCPadStatus ≠ exState0.validityIDCPadStatus ∧
    exStateIdcFailed.mPadStatusMap = none ∧
    loadIDCPadFlags (fun t => t) (fun _ => (none, exMetaFull)) 1 200 exStateIdcFailed
        = Except.ok (exStateIdcFailed, none) :=
  ⟨rfl, by decide, rfl, rfl⟩

/-- C1 (amended): on a failed IDC refresh (fetch returns no payload)
the payload and boolean maps are left untouched, but the validity
window IS overwritten with the bounds from the reply metadata; the next
staleness check consults only those recorded bounds, so no retry
happens at a timestamp they cover. -/
theorem C1_amended_failed_refresh_overwrites_window
    (getTS : Int → Int) (fIDC : Int → Option (List Nat) × CcdbMeta) (mask : Nat)
    (ts : Int) (s : CreatorState) (meta : CcdbMeta) (vf vu : Int)
    (hstale : s.validityIDCPadStatus.isValid (getTS ts) = false)
    (hfr : fIDC (getTS ts) = (none, meta))
    (hvf : meta.validFrom = some vf) (hvu : meta.validUntil = some vu) :
    loadIDCPadFlags getTS fIDC mask ts s
      = Except.ok ({ s with validityIDCPadStatus :=
          { startvalidity := vf, endvalidity := vu } }, some (getTS ts)) ∧
    ∀ ts2 : Int, getTS ts2 = ts2 → vf ≤ ts2 → ts2 < vu →
      loadIDCPadFlags getTS fIDC mask ts2
          { s with validityIDCPadStatus := { startvalidity := vf, endvalidity := vu } }
        = Except.ok ({ s with validityIDCPadStatus :=
            { startvalidity := vf, endvalidity := vu } }, none) := by
  constructor
  · unfold loadIDCPadFlags metaAt
    dsimp only
    rw [if_neg (by simp [hstale]), hfr]
    dsimp only
    rw [hvf, hvu]
  · intro ts2 h2 hlo hhi
    unfold loadIDCPadFlags
    dsimp only
    rw [h2, if_pos (by simp only [ValidityInterval.isValid, Bool.and_eq_true,
      decide_eq_true_eq]; omega)]

/-- Witness for C1 (amended): after the failed refresh recorded
`[0, 1000)`, a load at timestamp 150 does not retry the fetch. -/
theorem C1_amended_witness :
    loadIDCPadFlags (fun t => t) (fun _ => (none, exMetaFull)) 1 150 exStateIdcFailed
      = Except.ok (exStateIdcFailed, none) :=
  (C1_amended_failed_refresh_overwrites_window (fun t => t) (fun _ => (none, exMetaFull))
      1 100 exState0 exMetaFull 0 1000 rfl rfl rfl rfl).2 150 rfl (by decide) (by decide)

/-- C2 counterexample: a previously fetched FEE payload does NOT
survive a failed FEE refresh: `mFEEConfig.reset(...)` replaces it with
the null fetch result. -/
theorem C2_counterexample :
    exStateLoaded.mFEEConfig = some exCfg ∧
    loadFEEConfig none exMetaFull exStateLoaded = Except.ok exStateDroppedFEE ∧
    exStateDroppedFEE.mFEEConfig = none :=
  ⟨rfl, rfl, rfl⟩

/-- C2 (amended): a failed refresh leaves every derived boolean map
unchanged, and for the IDC source also the cached payload; the FEE
payload, however, is overwritten with the (null) fetch result, so only
its boolean map survives a failed FEE refresh. -/
theorem C2_amended_failed_refresh_keeps_maps
    (s : CreatorState) (meta : CcdbMeta) (tagv : Int) (htag : meta.tag = some tagv)
    (getTS : Int → Int) (fIDC : Int → Option (List Nat) × CcdbMeta) (mask : Nat) (ts : Int)
    (s1 : CreatorState) (tr : Option Int)
    (hfail : (fIDC (getTS ts)).1 = none)
    (hidc : loadIDCPadFlags getTS fIDC mask ts s = Except.ok (s1, tr)) :
    loadFEEConfig none meta s = Except.ok { s with mFEEConfig := none } ∧
    s1.mPadStatusMap = s.mPadStatusMap ∧ s1.mDeadChannelMapIDC = s.mDeadChannelMapIDC ∧
    s1.mDeadChannelMap = s.mDeadChannelMap := by
  constructor
  · unfold loadFEEConfig metaAt
    rw [htag]
  · revert hidc
    unfold loadIDCPadFlags metaAt
    dsimp only
    split
    · intro h
      injection h with h
      rw [Prod.mk.injEq] at h
      obtain ⟨h1, h2⟩ := h
      subst h1
      exact ⟨rfl, rfl, rfl⟩
    · rw [hfail]
      cases (fIDC (getTS ts)).2.validFrom <;>
        cases (fIDC (getTS ts)).2.validUntil <;>
        intro h <;>
        first
          | exact Except.noConfusion h
          | (injection h with h
             rw [Prod.mk.injEq] at h
             obtain ⟨h1, h2⟩ := h
             subst h1
             exact ⟨rfl, rfl, rfl⟩)

/-- Witness for C2 (amended): concrete failed FEE refresh over the
loaded one-channel state. -/
theorem C2_amended_witness :
    loadFEEConfig none exMetaFull exStateLoaded
      = Except.ok { exStateLoaded with mFEEConfig := none } :=
  (C2_amended_failed_refresh_keeps_maps exStateLoaded exMetaFull 1 rfl (fun t => t)
      (fun _ => (none, exMetaFull)) 1 2000 exStateLoaded (some 2000) rfl rfl).1

/-- C5 counterexample: a fetch reply whose metadata lacks the `Tag`
field makes the whole `load` call terminate abnormally
(`std::out_of_range` from `meta.at`), instead of being treated like a
not-found result. -/
theorem C5_counterexample :
    load (fun t => t) (fun _ => (some exCfg, exMetaNoTag)) (fun _ => (some [1], exMetaFull))
        1 100 exState0 = Except.error () :=
  rfl

/-- C5 (amended): a reply missing a required metadata field (`Tag` for
the FEE source; `Valid-From` or `Valid-Until` for the IDC source) is
NOT treated like not-found: the metadata lookup throws and the load
call terminates abnormally. -/
theorem C5_amended_missing_metadata_aborts
    (fetched : Option FEEConfig) (meta1 : CcdbMeta) (s : CreatorState)
    (h1 : meta1.tag = none)
    (getTS : Int → Int) (fIDC : Int → Option (List Nat) × CcdbMeta) (mask : Nat) (ts : Int)
    (t2 : CreatorState) (hstale : t2.validityIDCPadStatus.isValid (getTS ts) = false) :
    loadFEEConfig fetched meta1 s = Except.error () ∧
    ((fIDC (getTS ts)).2.validFrom = none →
       loadIDCPadFlags getTS fIDC mask ts t2 = Except.error ()) ∧
    (∀ vf, (fIDC (getTS ts)).2.validFrom = some vf →
       (fIDC (getTS ts)).2.validUntil = none →
       loadIDCPadFlags getTS fIDC mask ts t2 = Except.error ()) := by
  refine ⟨?_, ?_, ?_⟩
  · unfold loadFEEConfig metaAt
    rw [h1]
  · intro hvf
    unfold loadIDCPadFlags metaAt
    dsimp only
    rw [if_neg (by simp [hstale]), hvf]
  · intro vf hvf hvu
    unfold loadIDCPadFlags metaAt
    dsimp only
    rw [if_neg (by simp [hstale]), hvf, hvu]

/-- Witness for C5 (amended): a reply with both validity bounds absent
aborts the IDC refresh. -/
theorem C5_amended_witness :
    loadIDCPadFlags (fun t => t) (fun _ => (some [1], exMetaNoBounds)) 1 100 exState0
      = Except.error () :=
  (C5_amended_missing_metadata_aborts (some exCfg) exMetaNoTag exState0 rfl (fun t => t)
      (fun _ => (some [1], exMetaNoBounds)) 1 100 exState0 rfl).2.1 rfl

/-- C6 counterexample: after a load whose IDC fetch failed but whose
reply metadata recorded `[0, 1000)`, the IDC payload is absent, yet the
next load at timestamp 500 does not re-fetch the IDC source — the
refetch decision ignores payload presence. -/
theorem C6_counterexample :
    load (fun t => t) (fun _ => (some exCfg, exMetaFull)) (fun _ => (none, exMetaFull))
        1 100 exState0 = Except.ok (exStateHalfLoaded, some 60100, some 100) ∧
    exStateHalfLoaded.mPadStatusMap = none ∧
    load (fun t => t) (fun _ => (some exCfg, exMetaFull)) (fun _ => (none, exMetaFull))
        1 500 exStateHalfLoaded = Except.ok (exStateHalfLoaded, some 60500, none) :=
  ⟨rfl, rfl, rfl⟩

/-- C6 (amended): the IDC source is served from cache exactly when the
recorded validity window covers the timestamp, regardless of payload
presence, and re-fetched exactly otherwise; a successful refresh
records the reply's window `[vf, vu)` and payload, so later loads
inside `[vf, vu)` are served from cache and loads at `T ≥ vu` are
re-fetched. -/
theorem C6_amended_window_only_staleness
    (getTS : Int → Int) (fIDC : Int → Option (List Nat) × CcdbMeta) (mask : Nat)
    (t : CreatorState) (ts : Int) (hres : getTS ts = ts) :
    (t.validityIDCPadStatus.isValid ts = true →
       loadIDCPadFlags getTS fIDC mask ts t = Except.ok (t, none)) ∧
    (t.validityIDCPadStatus.isValid ts = false →
       ∀ s1 tr, loadIDCPadFlags getTS fIDC mask ts t = Except.ok (s1, tr) →
         tr = some ts) ∧
    (∀ flags meta vf vu, t.validityIDCPadStatus.isValid ts = false →
       fIDC ts = (some flags, meta) → meta.validFrom = some vf →
       meta.validUntil = some vu →
       ∀ s1 tr, loadIDCPadFlags getTS fIDC mask ts t = Except.ok (s1, tr) →
         s1.validityIDCPadStatus = { startvalidity := vf, endvalidity := vu } ∧
         s1.mPadStatusMap = some flags ∧
         (∀ T2, vf ≤ T2 → T2 < vu → s1.validityIDCPadStatus.isValid T2 = true) ∧
         (∀ T3, vu ≤ T3 → s1.validityIDCPadStatus.isValid T3 = false)) := by
  refine ⟨?_, ?_, ?_⟩
  · intro hv
    unfold loadIDCPadFlags
    dsimp only
    rw [hres, if_pos hv]
  · intro hv s1 tr h
    unfold loadIDCPadFlags metaAt at h
    dsimp only at h
    rw [hres, if_neg (by simp [hv])] at h
    revert h
    cases (fIDC ts).2.validFrom <;>
      cases (fIDC ts).2.validUntil <;>
      cases (fIDC ts).1 <;>
      intro h <;>
      first
        | exact Except.noConfusion h
        | (injection h with h
           rw [Prod.mk.injEq] at h
           exact h.2.symm)
  · intro flags meta vf vu hv hfr hvf hvu s1 tr h
    unfold loadIDCPadFlags metaAt at h
    dsimp only at h
    rw [hres, if_neg (by simp [hv]), hfr] at h
    dsimp only at h
    rw [hvf, hvu] at h
    dsimp only at h
    injection h with h
    rw [Prod.mk.injEq] at h
    obtain ⟨h1, h2⟩ := h
    subst h1
    refine ⟨rfl, rfl, ?_, ?_⟩
    · intro T2 hlo hhi
      show (decide (vf ≤ T2) && decide (T2 < vu)) = true
      rw [decide_eq_true hlo, decide_eq_true hhi, Bool.and_true]
    · intro T3 hge
      show (decide (vf ≤ T3) && decide (T3 < vu)) = false
      rw [decide_eq_false (by omega : ¬T3 < vu), Bool.and_false]

/-- Witness for C6 (amended): after a successful refresh recording
`[0, 1000)`, timestamp 150 is covered by the recorded window. -/
theorem C6_amended_witness :
    exStateIdcLoaded.validityIDCPadStatus.isValid 150 = true :=
  ((C6_amended_window_only_staleness (fun t => t) (fun _ => (some [1], exMetaFull)) 1
      exState0 100 rfl).2.2 [1] exMetaFull 0 1000 rfl rfl rfl rfl
      exStateIdcLoaded (some 100) rfl).2.2.1 150 (by decide) (by decide)

/-- A single completed `load` never turns a present IDC payload into an
absent one. -/
theorem load_keeps_idc_payload (getTS : Int → Int)
    (fFEE : Int → Option FEEConfig × CcdbMeta) (fIDC : Int → Option (List Nat) × CcdbMeta)
    (mask : Nat) (ts : Int) (s s1 : CreatorState) (trF trI : Option Int)
    (h : load getTS fFEE fIDC mask ts s = Except.ok (s1, trF, trI))
    (hs : s.mPadStatusMap.isSome = true) : s1.mPadStatusMap.isSome = true := by
  unfold load at h
  dsimp only at h
  cases hF : loadFEEConfigViaRunInfo getTS fFEE (getTS ts) s with
  | error e => rw [hF] at h; exact Except.noConfusion h
  | ok p =>
    obtain ⟨sA, trA⟩ := p
    rw [hF] at h
    dsimp only at h
    cases hI : loadIDCPadFlags getTS fIDC mask (getTS ts) sA with
    | error e => rw [hI] at h; exact Except.noConfusion h
    | ok q =>
      obtain ⟨sB, trB⟩ := q
      rw [hI] at h
      dsimp only at h
      injection h with h
      rw [Prod.mk.injEq] at h
      obtain ⟨h1, -⟩ := h
      subst h1
      have hF' : loadFEEConfigViaRunInfoTS fFEE (getTS (getTS ts)) s
          = Except.ok (sA, trA) := hF
      have eF := loadFEEConfigViaRunInfoTS_ok_shape _ _ _ _ _ hF'
      have eP := loadIDCPadFlags_payload _ _ _ _ _ _ _ hI
      show sB.mPadStatusMap.isSome = true
      cases eP with
      | inl hEq => rw [hEq, eF.1]; exact hs
      | inr hS => exact hS

/-- C8 (amended): for the IDC source the invariant holds — no sequence
of completed `load` calls, successful or failed, ever makes a present
IDC payload absent, so an absent IDC payload means the source was never
successfully fetched; the FEE payload, in contrast, is overwritten by
every attempted FEE fetch, including failed ones. -/
theorem C8_idc_payload_persistent (getTS : Int → Int)
    (inputs : List ((Int → Option FEEConfig × CcdbMeta)
      × (Int → Option (List Nat) × CcdbMeta) × Nat × Int))
    (s s1 : CreatorState) (h : loadSeq getTS inputs s = Except.ok s1)
    (hs : s.mPadStatusMap.isSome = true) : s1.mPadStatusMap.isSome = true := by
  induction inputs generalizing s with
  | nil =>
    unfold loadSeq at h
    injection h with h
    subst h
    exact hs
  | cons inp rest ih =>
    unfold loadSeq at h
    cases hl : load getTS inp.1 inp.2.1 inp.2.2.1 inp.2.2.2 s with
    | error e => rw [hl] at h; exact Except.noConfusion h
    | ok p =>
      obtain ⟨sm, trF, trI⟩ := p
      rw [hl] at h
      dsimp only at h
      exact ih _ h (load_keeps_idc_payload _ _ _ _ _ _ _ _ _ hl hs)

/-- C8 counterexample: a successful load leaves the FEE payload
present; a subsequent load whose FEE fetch fails leaves it absent —
a previously successful fetch does not keep the payload resident. -/
theorem C8_counterexample :
    load (fun t => t) (fun _ => (some exCfg, exMetaFull)) (fun _ => (some [1], exMetaFull))
        1 100 exState0 = Except.ok (exStateLoaded, some 60100, some 100) ∧
    exStateLoaded.mFEEConfig.isSome = true ∧
    load (fun t => t) (fun _ => (none, exMetaFull)) (fun _ => (some [1], exMetaFull))
        1 100 exStateLoaded = Except.ok (exStateDroppedFEE, some 60100, none) ∧
    exStateDroppedFEE.mFEEConfig = none :=
  ⟨rfl, rfl, rfl, rfl⟩

/-- Witness for C8 (amended): a one-call sequence over the loaded state
keeps the IDC payload present. -/
theorem C8_idc_payload_persistent_witness :
    exStateLoaded.mPadStatusMap.isSome = true :=
  C8_idc_payload_persistent (fun t => t)
    [((fun _ => (some exCfg, exMetaFull)), (fun _ => (some [1], exMetaFull)), 1, 100)]
    exStateLoaded exStateLoaded rfl rfl

end TPC
end AliceO2
